import Mathlib

/-!
Verification of the diabetes risk checker (`src/app.py`).

Shallow embedding conventions:
* Python floats are modelled as `ℚ`; `round(x, 2)` becomes `round2`.
* `np.clip(v, lo, hi)` (which is `min (max v lo) hi`) becomes `clip_value`.
* The dictionary `DPF_MAP` becomes an association list; indexing into it
  becomes `mapFamilyHistory`, returning `none` where Python raises `KeyError`.
* The Streamlit submit handler (lines 138-217 of `app.py`) becomes the pure
  function `submit`, taking the form state (`SubmitInput`) and the loaded
  model (`Option Classifier`, `none` when the artifact failed to load) and
  returning everything the handler renders (`SubmitResult`).
* Thai message strings are copied verbatim from the source.
-/

namespace Diabetset

/-- `RANGES` table of `app.py` (lines 12-21): declared (min, max) per field. -/
def RANGES_age : ℚ × ℚ := (10, 100)

def RANGES_glucose : ℚ × ℚ := (40, 300)

def RANGES_blood : ℚ × ℚ := (40, 140)

def RANGES_skin : ℚ × ℚ := (5, 80)

def RANGES_insulin : ℚ × ℚ := (10, 400)

def RANGES_bmi : ℚ × ℚ := (10, 60)

def RANGES_weight : ℚ × ℚ := (20, 250)

def RANGES_height : ℚ × ℚ := (100, 220)

/-- `MEDIAN_FALLBACKS["Insulin"]` (line 25). -/
def MEDIAN_FALLBACKS_Insulin : ℚ := 80

/-- `MEDIAN_FALLBACKS["SkinThickness"]` (line 26). -/
def MEDIAN_FALLBACKS_SkinThickness : ℚ := 20

/-- `DPF_MAP` (lines 30-36): dropdown label to numeric DPF value. -/
def DPF_MAP : List (String × ℚ) :=
  [("ไม่มีประวัติในครอบครัว", 0.05),
   ("ญาติห่าง (เช่น ป้า/น้า/อา) เป็น", 0.5),
   ("พ่อหรือแม่เป็น", 1.0),
   ("พ่อแม่ + พี่น้องเป็น", 2.0),
   ("หลายคนในครอบครัวเป็น", 2.5)]

/-- Dictionary lookup `DPF_MAP[label]`; `none` models Python's `KeyError`. -/
def mapFamilyHistory (label : String) : Option ℚ :=
  DPF_MAP.lookup label

/-- `clip_value` (lines 51-52): `float(np.clip(v, minv, maxv))`.
`np.clip` applies the lower bound first, then the upper bound. -/
def clip_value (v minv maxv : ℚ) : ℚ :=
  min (max v minv) maxv

/-- Python's `round(x, 2)`: round to the nearest multiple of `1/100`. -/
def round2 (x : ℚ) : ℚ :=
  ((round (100 * x) : ℤ) : ℚ) / 100

/-- `risk_level_from_prob` (lines 54-61): bucketize a probability into a
(tier label, tier message) pair.  The Thai labels are Low / Medium / High. -/
def risk_level_from_prob (p : ℚ) : String × String :=
  if p < 0.30 then
    ("ต่ำ", "ความเสี่ยงต่ำ แต่ควรดูแลสุขภาพอย่างสม่ำเสมอ")
  else if p < 0.60 then
    ("ปานกลาง", "ความเสี่ยงปานกลาง — แนะนำตรวจสุขภาพเพิ่มเติมและปรับพฤติกรรม")
  else
    ("สูง", "ความเสี่ยงสูง — ควรปรึกษาแพทย์และตรวจเลือด (fasting glucose / HbA1c)")

/-- Tier labels used by `risk_level_from_prob`. -/
def lowLabel : String := "ต่ำ"

def mediumLabel : String := "ปานกลาง"

def highLabel : String := "สูง"

/-- Advisory strings of `health_advice` (lines 63-86), copied verbatim. -/
def obesityMsg : String :=
  "น้ำหนักเกิน/อ้วน: แนะนำลดน้ำหนักอย่างค่อยเป็นค่อยไป (ปรับอาหาร คุมปริมาณแคลอรี และออกกำลังกายอย่างน้อย 150 นาที/สัปดาห์)"

def overweightMsg : String :=
  "น้ำหนักเกิน: พิจารณาปรับพฤติกรรมการกินและออกกำลังกายเพื่อไม่ให้เพิ่มมากขึ้น"

def healthyWeightMsg : String :=
  "น้ำหนักในเกณฑ์ดี: รักษาระดับความแข็งแรงและโภชนาการที่สมดุล"

def urgentGlucoseMsg : String :=
  "ค่าน้ำตาลสูงมาก — ควรรีบตรวจเลือดและปรึกษาแพทย์"

def preDiabetesMsg : String :=
  "ค่าน้ำตาลสูง (อาจเป็น pre-diabetes) — แนะนำปรับพฤติกรรมและตรวจซ้ำ"

def normalGlucoseMsg : String :=
  "ค่าน้ำตาลในช่วงปกติ (ตามที่กรอก)"

def bloodPressureMsg : String :=
  "ความดันค่อนข้างสูง: ควรติดตามความดันและปรับพฤติกรรม (ลดเค็ม/ออกกำลังกาย)"

def dataCompletenessMsg : String :=
  "ข้อมูลอินซูลิน/ความหนาผิวหนังไม่ครบ — หากต้องการการประเมินละเอียด ควรตรวจทางการแพทย์เพื่อหาค่าจริง"

def ageMsg : String :=
  "อายุมากกว่า 60 ปี — ควรตรวจสุขภาพเป็นประจำความเสี่ยงโรคระบบเมตาบอลิซึมสูงขึ้น"

/-- `health_advice` (lines 63-86).  Each numeric argument is `Option`al
because the source guards each block with `is not None`. -/
def health_advice (glucose bmi blood age : Option ℚ)
    (insulin_provided skin_provided : Bool) : List String :=
  (match bmi with
   | some b =>
       if b ≥ 30 then [obesityMsg]
       else if b ≥ 25 then [overweightMsg]
       else [healthyWeightMsg]
   | none => []) ++
  (match glucose with
   | some g =>
       if g ≥ 200 then [urgentGlucoseMsg]
       else if g ≥ 140 then [preDiabetesMsg]
       else [normalGlucoseMsg]
   | none => []) ++
  (match blood with
   | some bp => if bp ≥ 120 then [bloodPressureMsg] else []
   | none => []) ++
  (if !insulin_provided || !skin_provided then [dataCompletenessMsg] else []) ++
  (match age with
   | some a => if a ≥ 60 then [ageMsg] else []
   | none => [])

/-- The form state reaching the submit handler (lines 103-136).  The UI
constrains `age`, `pregnancies`, `weight`, `height`, `glucose`, `blood` to
their declared ranges via widget min/max; `skin` and `insulin` are `none`
when their checkbox is unticked; `dpf` is already resolved from the
selectbox label through `DPF_MAP` (line 134). -/
structure SubmitInput where
  age : ℚ
  pregnancies : ℚ
  weight : ℚ
  height : ℚ
  glucose : ℚ
  blood : ℚ
  skin : Option ℚ
  insulin : Option ℚ
  dpf : ℚ

/-- The loaded model object (lines 176-183): `predict_proba`, when the
attribute exists, returns the (negative, positive) class probabilities for
the single feature vector; otherwise `predict` returns a discrete label
used directly as the probability. -/
structure Classifier where
  predict_proba : Option (List ℚ → ℚ × ℚ)
  predict : List ℚ → ℚ

/-- `RiskAssessment`: probability, tier label, tier message and the
composed advice list (lines 184-199). -/
structure RiskAssessment where
  probability : ℚ
  tier : String
  message : String
  adviceList : List String

/-- Everything the submit handler computes and renders: the input summary
(lines 158-171), the assembled feature vector (line 156), whether the
artifact-unavailable error was shown (line 174), and the risk assessment
(`none` when no prediction happened). -/
structure SubmitResult where
  glucose : ℚ
  bmi : ℚ
  age : ℚ
  blood : ℚ
  insulinUsed : ℚ
  dpf : ℚ
  skinUsed : ℚ
  insulinProvided : Bool
  skinProvided : Bool
  featureVector : Option (List ℚ)
  artifactUnavailable : Bool
  assessment : Option RiskAssessment

/-- The submit handler body (lines 138-217), transcribed statement by
statement.  Note the source computes the feature vector (line 156) and the
summary before checking `model is None` (line 173). -/
def submit (model : Option Classifier) (inp : SubmitInput) : SubmitResult :=
  let glucose := clip_value inp.glucose RANGES_glucose.1 RANGES_glucose.2
  let blood := clip_value inp.blood RANGES_blood.1 RANGES_blood.2
  let weight := clip_value inp.weight RANGES_weight.1 RANGES_weight.2
  let height := clip_value inp.height RANGES_height.1 RANGES_height.2
  let bmi0 := round2 (weight / (height / 100) ^ 2)
  let bmi := clip_value bmi0 RANGES_bmi.1 RANGES_bmi.2
  let insulin_used0 := inp.insulin.getD MEDIAN_FALLBACKS_Insulin
  let skin_used0 := inp.skin.getD MEDIAN_FALLBACKS_SkinThickness
  let insulin_provided_flag := inp.insulin.isSome
  let skin_provided_flag := inp.skin.isSome
  let insulin_used := clip_value insulin_used0 RANGES_insulin.1 RANGES_insulin.2
  let skin_used := clip_value skin_used0 RANGES_skin.1 RANGES_skin.2
  let fv := [glucose, bmi, inp.age, blood, insulin_used, inp.dpf, skin_used]
  match model with
  | none =>
      { glucose := glucose, bmi := bmi, age := inp.age, blood := blood,
        insulinUsed := insulin_used, dpf := inp.dpf, skinUsed := skin_used,
        insulinProvided := insulin_provided_flag,
        skinProvided := skin_provided_flag,
        featureVector := some fv, artifactUnavailable := true,
        assessment := none }
  | some c =>
      let prob :=
        match c.predict_proba with
        | some f => (f fv).2
        | none => c.predict fv
      let rl := risk_level_from_prob prob
      let adv := health_advice (some glucose) (some bmi) (some blood)
        (some inp.age) insulin_provided_flag skin_provided_flag
      { glucose := glucose, bmi := bmi, age := inp.age, blood := blood,
        insulinUsed := insulin_used, dpf := inp.dpf, skinUsed := skin_used,
        insulinProvided := insulin_provided_flag,
        skinProvided := skin_provided_flag,
        featureVector := some fv, artifactUnavailable := false,
        assessment := some { probability := prob, tier := rl.1,
                             message := rl.2, adviceList := adv } }

/-- Clipped glucose as used by the handler (line 140). -/
def glucose_clipped (inp : SubmitInput) : ℚ :=
  clip_value inp.glucose RANGES_glucose.1 RANGES_glucose.2

/-- Clipped blood pressure as used by the handler (line 141). -/
def blood_clipped (inp : SubmitInput) : ℚ :=
  clip_value inp.blood RANGES_blood.1 RANGES_blood.2

/-- Raw BMI before clipping: `round(weight / ((height/100)**2), 2)`
(line 144). -/
def bmi_raw (w h : ℚ) : ℚ :=
  round2 (w / (h / 100) ^ 2)

/-- BMI clipped into the declared `[10, 60]` range (line 145). -/
def bmi_from (w h : ℚ) : ℚ :=
  clip_value (bmi_raw w h) RANGES_bmi.1 RANGES_bmi.2

/-- The BMI the handler places in the feature vector: computed from the
already-clipped weight and height (lines 142-145). -/
def bmi_final (inp : SubmitInput) : ℚ :=
  bmi_from (clip_value inp.weight RANGES_weight.1 RANGES_weight.2)
    (clip_value inp.height RANGES_height.1 RANGES_height.2)

/-- Resolved insulin value: the input when present, else the median
fallback, then clipped (lines 148, 153). -/
def insulin_used (inp : SubmitInput) : ℚ :=
  clip_value (inp.insulin.getD MEDIAN_FALLBACKS_Insulin)
    RANGES_insulin.1 RANGES_insulin.2

/-- Resolved skin-thickness value: the input when present, else the median
fallback, then clipped (lines 149, 154). -/
def skin_used (inp : SubmitInput) : ℚ :=
  clip_value (inp.skin.getD MEDIAN_FALLBACKS_SkinThickness)
    RANGES_skin.1 RANGES_skin.2

/-- The fixed-order feature vector (line 156). -/
def feature_vector (inp : SubmitInput) : List ℚ :=
  [glucose_clipped inp, bmi_final inp, inp.age, blood_clipped inp,
   insulin_used inp, inp.dpf, skin_used inp]

/-- A concrete form state used by witnesses: age 40, the form defaults for
the numeric fields, both optional fields absent, DPF label resolved to 1. -/
def inp0 : SubmitInput :=
  { age := 40, pregnancies := 0, weight := 70, height := 170,
    glucose := 100, blood := 80, skin := none, insulin := none, dpf := 1 }

/-! ### Helper lemmas about `clip_value` (shared by several theorems) -/

lemma clip_value_le (v lo hi : ℚ) : clip_value v lo hi ≤ hi :=
  min_le_right _ _

lemma le_clip_value (v lo hi : ℚ) (h : lo ≤ hi) : lo ≤ clip_value v lo hi :=
  le_min (le_max_right v lo) h

lemma clip_value_eq_self (v lo hi : ℚ) (h1 : lo ≤ v) (h2 : v ≤ hi) :
    clip_value v lo hi = v := by
  unfold clip_value
  rw [max_eq_left h1, min_eq_left h2]

lemma clip_value_eq_max_min (v lo hi : ℚ) (h : lo ≤ hi) :
    clip_value v lo hi = max lo (min v hi) := by
  unfold clip_value
  have hd : max lo (min v hi) = min (max lo v) (max lo hi) :=
    max_min_distrib_left lo v hi
  rw [hd, max_eq_right h, max_comm lo v]

lemma clip_value_idem (v lo hi : ℚ) (h : lo ≤ hi) :
    clip_value (clip_value v lo hi) lo hi = clip_value v lo hi :=
  clip_value_eq_self _ _ _ (le_clip_value v lo hi h) (clip_value_le v lo hi)

/-! ### Claim theorems -/

/-- C9: for bounds `lo ≤ hi`, `clip_value v lo hi` equals
`max lo (min v hi)`, lies in `[lo, hi]`, is the identity on in-range
values, and is idempotent.  (It is a total Lean function: pure, no failure
mode.) -/
theorem clip_value_spec (v lo hi : ℚ) (h : lo ≤ hi) :
    clip_value v lo hi = max lo (min v hi) ∧
    lo ≤ clip_value v lo hi ∧
    clip_value v lo hi ≤ hi ∧
    (lo ≤ v → v ≤ hi → clip_value v lo hi = v) ∧
    clip_value (clip_value v lo hi) lo hi = clip_value v lo hi :=
  ⟨clip_value_eq_max_min v lo hi h, le_clip_value v lo hi h,
   clip_value_le v lo hi,
   fun h1 h2 => clip_value_eq_self v lo hi h1 h2,
   clip_value_idem v lo hi h⟩

/-- C9 witness: the clipping spec instantiated at `v = 500`, bounds
`[40, 300]`. -/
theorem clip_value_spec_witness :
    clip_value 500 40 300 = max 40 (min 500 300) ∧
    clip_value (clip_value 500 40 300) 40 300 = clip_value 500 40 300 :=
  ⟨(clip_value_spec 500 40 300 (by norm_num)).1,
   (clip_value_spec 500 40 300 (by norm_num)).2.2.2.2⟩

/-- Tier messages of `risk_level_from_prob`. -/
def lowMsg : String := "ความเสี่ยงต่ำ แต่ควรดูแลสุขภาพอย่างสม่ำเสมอ"

def mediumMsg : String := "ความเสี่ยงปานกลาง — แนะนำตรวจสุขภาพเพิ่มเติมและปรับพฤติกรรม"

def highMsg : String := "ความเสี่ยงสูง — ควรปรึกษาแพทย์และตรวจเลือด (fasting glucose / HbA1c)"

/-- C3: the bucketizer returns Low below 0.30, Medium on [0.30, 0.60),
High at and above 0.60; each threshold belongs to the upper bucket, as the
evaluations at 0.29, 0.30, 0.59 and 0.60 show. -/
theorem risk_level_from_prob_spec :
    (∀ p : ℚ, p < 0.30 → risk_level_from_prob p = (lowLabel, lowMsg)) ∧
    (∀ p : ℚ, 0.30 ≤ p → p < 0.60 →
      risk_level_from_prob p = (mediumLabel, mediumMsg)) ∧
    (∀ p : ℚ, 0.60 ≤ p → risk_level_from_prob p = (highLabel, highMsg)) ∧
    risk_level_from_prob 0.29 = (lowLabel, lowMsg) ∧
    risk_level_from_prob 0.30 = (mediumLabel, mediumMsg) ∧
    risk_level_from_prob 0.59 = (mediumLabel, mediumMsg) ∧
    risk_level_from_prob 0.60 = (highLabel, highMsg) := by
  refine ⟨?_, ?_, ?_, ?_, ?_, ?_, ?_⟩
  · intro p hp
    simp [risk_level_from_prob, hp, lowLabel, lowMsg]
  · intro p h1 h2
    rw [risk_level_from_prob, if_neg (not_lt.mpr h1), if_pos h2]
    rfl
  · intro p h
    rw [risk_level_from_prob, if_neg (not_lt.mpr (le_trans (by norm_num) h)),
      if_neg (not_lt.mpr h)]
    rfl
  · rw [risk_level_from_prob, if_pos (show (0.29 : ℚ) < 0.30 by norm_num)]
    rfl
  · rw [risk_level_from_prob, if_neg (show ¬(0.30 : ℚ) < 0.30 by norm_num),
      if_pos (show (0.30 : ℚ) < 0.60 by norm_num)]
    rfl
  · rw [risk_level_from_prob, if_neg (show ¬(0.59 : ℚ) < 0.30 by norm_num),
      if_pos (show (0.59 : ℚ) < 0.60 by norm_num)]
    rfl
  · rw [risk_level_from_prob, if_neg (show ¬(0.60 : ℚ) < 0.30 by norm_num),
      if_neg (show ¬(0.60 : ℚ) < 0.60 by norm_num)]
    rfl

/-- C3 witness: the bucketizer spec instantiated at `p = 0.45` (Medium). -/
theorem risk_level_from_prob_spec_witness :
    risk_level_from_prob 0.45 = (mediumLabel, mediumMsg) :=
  risk_level_from_prob_spec.2.1 0.45 (by norm_num) (by norm_num)

/-- C10: the bucketizer is total on all of `ℚ`: every `p < 0.30`,
negative values included, yields Low, and every `p ≥ 0.60`, values above 1
included, yields High; there is no error branch. -/
theorem risk_level_from_prob_total :
    (∀ p : ℚ, p < 0.30 → risk_level_from_prob p = (lowLabel, lowMsg)) ∧
    (∀ p : ℚ, 0.60 ≤ p → risk_level_from_prob p = (highLabel, highMsg)) ∧
    risk_level_from_prob (-1) = (lowLabel, lowMsg) ∧
    risk_level_from_prob 2 = (highLabel, highMsg) := by
  refine ⟨?_, ?_, ?_, ?_⟩
  case refine_3 =>
    rw [risk_level_from_prob, if_pos (show (-1 : ℚ) < 0.30 by norm_num)]
    rfl
  case refine_4 =>
    rw [risk_level_from_prob, if_neg (show ¬(2 : ℚ) < 0.30 by norm_num),
      if_neg (show ¬(2 : ℚ) < 0.60 by norm_num)]
    rfl
  · intro p hp
    simp [risk_level_from_prob, hp, lowLabel, lowMsg]
  · intro p h
    rw [risk_level_from_prob, if_neg (not_lt.mpr (le_trans (by norm_num) h)),
      if_neg (not_lt.mpr h)]
    rfl

/-- C10 witness: totality instantiated at the out-of-range inputs `-5`
and `3/2`. -/
theorem risk_level_from_prob_total_witness :
    risk_level_from_prob (-5) = (lowLabel, lowMsg) ∧
    risk_level_from_prob (3/2) = (highLabel, highMsg) :=
  ⟨risk_level_from_prob_total.1 (-5) (by norm_num),
   risk_level_from_prob_total.2.1 (3/2) (by norm_num)⟩

/-- C7: `DPF_MAP` has exactly 5 entries with the stated values; the
parent label maps to 1.0; any label outside the 5-entry key set yields
`none` (Python's `KeyError`) rather than a value. -/
theorem mapFamilyHistory_spec :
    (mapFamilyHistory ("ไม่มีประวัติในครอบครัว") = some 0.05 ∧
     mapFamilyHistory ("ญาติห่าง (เช่น ป้า/น้า/อา) เป็น") = some 0.5 ∧
     mapFamilyHistory ("พ่อหรือแม่เป็น") = some 1.0 ∧
     mapFamilyHistory ("พ่อแม่ + พี่น้องเป็น") = some 2.0 ∧
     mapFamilyHistory ("หลายคนในครอบครัวเป็น") = some 2.5) ∧
    DPF_MAP.length = 5 ∧
    ∀ l : String, l ∉ DPF_MAP.map Prod.fst → mapFamilyHistory l = none := by
  refine ⟨⟨rfl, rfl, rfl, rfl, rfl⟩, rfl, ?_⟩
  intro l hl
  simp only [DPF_MAP, List.map_cons, List.map_nil, List.mem_cons,
    List.not_mem_nil, or_false, not_or] at hl
  obtain ⟨h1, h2, h3, h4, h5⟩ := hl
  have e1 := beq_eq_false_iff_ne.mpr h1
  have e2 := beq_eq_false_iff_ne.mpr h2
  have e3 := beq_eq_false_iff_ne.mpr h3
  have e4 := beq_eq_false_iff_ne.mpr h4
  have e5 := beq_eq_false_iff_ne.mpr h5
  simp [mapFamilyHistory, DPF_MAP, List.lookup, e1, e2, e3, e4, e5]

/-- C7 witness: an unrecognized label gets no value. -/
theorem mapFamilyHistory_spec_witness :
    mapFamilyHistory ("unknown label") = none :=
  mapFamilyHistory_spec.2.2 ("unknown label") (by decide)

/-- Evaluation rule for `round` on an explicit rational. -/
lemma round_eq_of (q : ℚ) (z : ℤ) (h1 : (z : ℚ) ≤ q + 1 / 2)
    (h2 : q + 1 / 2 < z + 1) : round q = z := by
  rw [round_eq]
  exact Int.floor_eq_iff.mpr ⟨h1, h2⟩

/-- C4: with all numerics present, the advice list is exactly: one weight
advisory (obesity / overweight / healthy by the 30 and 25 thresholds), one
glucose advisory (urgent / pre-diabetes / normal by the 200 and 140
thresholds), a blood-pressure advisory iff `blood ≥ 120`, one combined
data-completeness advisory iff a provided-flag is false, and an age
advisory iff `age ≥ 60`, in that fixed order; in particular
`advise(250, 32, 130, 65, false, true)` is the stated 5-line list. -/
theorem health_advice_spec :
    (∀ (g b bp a : ℚ) (ip sp : Bool),
      health_advice (some g) (some b) (some bp) (some a) ip sp =
        [if b ≥ 30 then obesityMsg
         else if b ≥ 25 then overweightMsg else healthyWeightMsg,
         if g ≥ 200 then urgentGlucoseMsg
         else if g ≥ 140 then preDiabetesMsg else normalGlucoseMsg]
        ++ (if bp ≥ 120 then [bloodPressureMsg] else [])
        ++ (if !ip || !sp then [dataCompletenessMsg] else [])
        ++ (if a ≥ 60 then [ageMsg] else [])) ∧
    health_advice (some 250) (some 32) (some 130) (some 65) false true =
      [obesityMsg, urgentGlucoseMsg, bloodPressureMsg, dataCompletenessMsg,
       ageMsg] := by
  have hA : ∀ (g b bp a : ℚ) (ip sp : Bool),
      health_advice (some g) (some b) (some bp) (some a) ip sp =
        [if b ≥ 30 then obesityMsg
         else if b ≥ 25 then overweightMsg else healthyWeightMsg,
         if g ≥ 200 then urgentGlucoseMsg
         else if g ≥ 140 then preDiabetesMsg else normalGlucoseMsg]
        ++ (if bp ≥ 120 then [bloodPressureMsg] else [])
        ++ (if !ip || !sp then [dataCompletenessMsg] else [])
        ++ (if a ≥ 60 then [ageMsg] else []) := by
    intro g b bp a ip sp
    simp only [health_advice]
    split_ifs <;> rfl
  refine ⟨hA, ?_⟩
  rw [hA 250 32 130 65 false true,
    if_pos (show (32 : ℚ) ≥ 30 by norm_num),
    if_pos (show (250 : ℚ) ≥ 200 by norm_num),
    if_pos (show (130 : ℚ) ≥ 120 by norm_num),
    if_pos (show (65 : ℚ) ≥ 60 by norm_num)]
  rfl

/-- C2: every numeric field the handler places into the feature vector
lies in its declared range: clipping bounds glucose, blood pressure, BMI,
insulin and skin thickness, and age is a record field whose declared range
`[10, 100]` the presentation layer enforces (the handler itself never
clips age). -/
theorem feature_ranges (inp : SubmitInput) (h1 : 10 ≤ inp.age)
    (h2 : inp.age ≤ 100) :
    (40 ≤ glucose_clipped inp ∧ glucose_clipped inp ≤ 300) ∧
    (40 ≤ blood_clipped inp ∧ blood_clipped inp ≤ 140) ∧
    (10 ≤ bmi_final inp ∧ bmi_final inp ≤ 60) ∧
    (10 ≤ insulin_used inp ∧ insulin_used inp ≤ 400) ∧
    (5 ≤ skin_used inp ∧ skin_used inp ≤ 80) ∧
    (10 ≤ inp.age ∧ inp.age ≤ 100) := by
  refine ⟨⟨?_, ?_⟩, ⟨?_, ?_⟩, ⟨?_, ?_⟩, ⟨?_, ?_⟩, ⟨?_, ?_⟩, h1, h2⟩
  · unfold glucose_clipped
    exact le_clip_value _ _ _ (by norm_num [RANGES_glucose])
  · unfold glucose_clipped
    exact clip_value_le _ _ _
  · unfold blood_clipped
    exact le_clip_value _ _ _ (by norm_num [RANGES_blood])
  · unfold blood_clipped
    exact clip_value_le _ _ _
  · unfold bmi_final bmi_from
    exact le_clip_value _ _ _ (by norm_num [RANGES_bmi])
  · unfold bmi_final bmi_from
    exact clip_value_le _ _ _
  · unfold insulin_used
    exact le_clip_value _ _ _ (by norm_num [RANGES_insulin])
  · unfold insulin_used
    exact clip_value_le _ _ _
  · unfold skin_used
    exact le_clip_value _ _ _ (by norm_num [RANGES_skin])
  · unfold skin_used
    exact clip_value_le _ _ _

/-- C2 witness: the range invariant instantiated at the default form
state `inp0` (age 40). -/
theorem feature_ranges_witness :
    (10 : ℚ) ≤ inp0.age ∧ inp0.age ≤ 100 ∧
    (10 ≤ bmi_final inp0 ∧ bmi_final inp0 ≤ 60) := by
  refine ⟨by norm_num [inp0], by norm_num [inp0], ?_⟩
  exact (feature_ranges inp0 (by norm_num [inp0]) (by norm_num [inp0])).2.2.1

/-- C5: for weight and height within their declared ranges (so that their
own clipping is the identity), the pipeline BMI is the raw
`weight / (height/100)^2` rounded to 2 decimals and clipped into
`[10, 60]`; `bmi_raw 70 170 = 24.22`, and at weight 20 / height 220 the
raw BMI is below 10 so the final value is exactly 10. -/
theorem bmi_spec :
    (∀ inp : SubmitInput, 20 ≤ inp.weight → inp.weight ≤ 250 →
      100 ≤ inp.height → inp.height ≤ 220 →
      bmi_final inp =
        clip_value (round2 (inp.weight / (inp.height / 100) ^ 2)) 10 60) ∧
    bmi_raw 70 170 = 24.22 ∧
    bmi_raw 20 220 < 10 ∧
    bmi_from 20 220 = 10 := by
  have hr1 : round ((100 : ℚ) * (70 / (170 / 100) ^ 2)) = 2422 :=
    round_eq_of _ 2422 (by norm_num) (by norm_num)
  have hr2 : round ((100 : ℚ) * (20 / (220 / 100) ^ 2)) = 413 :=
    round_eq_of _ 413 (by norm_num) (by norm_num)
  have hraw2 : bmi_raw 20 220 = 413 / 100 := by
    unfold bmi_raw round2
    rw [hr2]
    norm_num
  refine ⟨?_, ?_, ?_, ?_⟩
  · intro inp hw1 hw2 hh1 hh2
    unfold bmi_final bmi_from bmi_raw
    rw [clip_value_eq_self inp.weight RANGES_weight.1 RANGES_weight.2 hw1 hw2,
      clip_value_eq_self inp.height RANGES_height.1 RANGES_height.2 hh1 hh2]
    rfl
  · unfold bmi_raw round2
    rw [hr1]
    norm_num
  · rw [hraw2]
    norm_num
  · have : bmi_from 20 220 = clip_value (bmi_raw 20 220) 10 60 := rfl
    rw [this, hraw2]
    unfold clip_value
    rw [max_eq_right (show (413 / 100 : ℚ) ≤ 10 by norm_num),
      min_eq_left (show (10 : ℚ) ≤ 60 by norm_num)]

/-- A second concrete form state for witnesses: age 65, weight 20,
height 220, glucose 250, blood pressure 130, skin thickness given as 30,
insulin absent, no-family-history DPF value. -/
def inp1 : SubmitInput :=
  { age := 65, pregnancies := 0, weight := 20, height := 220,
    glucose := 250, blood := 130, skin := some 30, insulin := none,
    dpf := 0.05 }

/-- C5 witness: the BMI identity instantiated at `inp1`
(weight 20, height 220). -/
theorem bmi_spec_witness :
    bmi_final inp1 =
      clip_value (round2 (inp1.weight / (inp1.height / 100) ^ 2)) 10 60 :=
  bmi_spec.1 inp1 (by norm_num [inp1]) (by norm_num [inp1])
    (by norm_num [inp1]) (by norm_num [inp1])

/-- C6: whatever the model state, the handler hands the classifier exactly
the fixed-order vector [glucose, bmi, age, bloodPressure, insulinUsed,
dpfScore, skinThicknessUsed] built from the clipped and resolved values. -/
theorem feature_vector_order (m : Option Classifier) (inp : SubmitInput) :
    (submit m inp).featureVector =
      some [glucose_clipped inp, bmi_final inp, inp.age, blood_clipped inp,
            insulin_used inp, inp.dpf, skin_used inp] := by
  cases m <;> rfl

/-- C8: the resolved insulin (resp. skin-thickness) value is the provided
input clipped to `[10, 400]` (resp. `[5, 80]`) when present, else the
fallback 80 (resp. 20), on which the clip is the identity since each
fallback lies in range; the provided-flags equal exactly the presence of
the optional inputs, for any model state. -/
theorem optional_resolution (m : Option Classifier) (inp : SubmitInput) :
    ((submit m inp).insulinUsed =
       clip_value (inp.insulin.getD MEDIAN_FALLBACKS_Insulin) 10 400 ∧
     (submit m inp).skinUsed =
       clip_value (inp.skin.getD MEDIAN_FALLBACKS_SkinThickness) 5 80) ∧
    (∀ i : ℚ, inp.insulin = some i →
      (submit m inp).insulinUsed = clip_value i 10 400) ∧
    (inp.insulin = none →
      (submit m inp).insulinUsed = MEDIAN_FALLBACKS_Insulin) ∧
    (∀ s : ℚ, inp.skin = some s →
      (submit m inp).skinUsed = clip_value s 5 80) ∧
    (inp.skin = none →
      (submit m inp).skinUsed = MEDIAN_FALLBACKS_SkinThickness) ∧
    (clip_value MEDIAN_FALLBACKS_Insulin 10 400 = MEDIAN_FALLBACKS_Insulin ∧
     clip_value MEDIAN_FALLBACKS_SkinThickness 5 80 =
       MEDIAN_FALLBACKS_SkinThickness) ∧
    ((submit m inp).insulinProvided = inp.insulin.isSome ∧
     (submit m inp).skinProvided = inp.skin.isSome) := by
  have hins : (submit m inp).insulinUsed =
      clip_value (inp.insulin.getD MEDIAN_FALLBACKS_Insulin) 10 400 := by
    cases m <;> rfl
  have hskin : (submit m inp).skinUsed =
      clip_value (inp.skin.getD MEDIAN_FALLBACKS_SkinThickness) 5 80 := by
    cases m <;> rfl
  have hnoop1 : clip_value MEDIAN_FALLBACKS_Insulin 10 400 =
      MEDIAN_FALLBACKS_Insulin :=
    clip_value_eq_self _ _ _ (by norm_num [MEDIAN_FALLBACKS_Insulin])
      (by norm_num [MEDIAN_FALLBACKS_Insulin])
  have hnoop2 : clip_value MEDIAN_FALLBACKS_SkinThickness 5 80 =
      MEDIAN_FALLBACKS_SkinThickness :=
    clip_value_eq_self _ _ _ (by norm_num [MEDIAN_FALLBACKS_SkinThickness])
      (by norm_num [MEDIAN_FALLBACKS_SkinThickness])
  refine ⟨⟨hins, hskin⟩, ?_, ?_, ?_, ?_, ⟨hnoop1, hnoop2⟩, ?_, ?_⟩
  · intro i hi
    rw [hins, hi]
    rfl
  · intro hi
    rw [hins, hi]
    exact hnoop1
  · intro s hs
    rw [hskin, hs]
    rfl
  · intro hs
    rw [hskin, hs]
    exact hnoop2
  · cases m <;> rfl
  · cases m <;> rfl

/-- C8 witness: optional resolution at `inp1` (insulin absent, skin
thickness supplied as 30), with the artifact absent. -/
theorem optional_resolution_witness :
    (submit none inp1).insulinUsed = MEDIAN_FALLBACKS_Insulin ∧
    (submit none inp1).skinUsed = clip_value 30 5 80 :=
  ⟨(optional_resolution none inp1).2.2.1 rfl,
   (optional_resolution none inp1).2.2.2.1 30 rfl⟩

/-- C1 counterexample: with the artifact absent, the handler still
assembles the feature vector (line 156 runs before the `model is None`
check of line 173), refuting "no feature-vector assembly". -/
theorem artifact_absent_counterexample :
    (submit none inp0).artifactUnavailable = true ∧
    (submit none inp0).featureVector ≠ none := by
  refine ⟨rfl, ?_⟩
  intro hc
  exact Option.noConfusion hc

/-- C1 amended: with the artifact absent the handler reports
artifact-unavailable, attempts no prediction and produces no
RiskAssessment — but only after assembling the feature vector (and the
input summary), which the source computes before the artifact check. -/
theorem artifact_absent_behavior (inp : SubmitInput) :
    (submit none inp).artifactUnavailable = true ∧
    (submit none inp).assessment = none ∧
    (submit none inp).featureVector = some (feature_vector inp) :=
  ⟨rfl, rfl, rfl⟩

end Diabetset
